import Mathlib

/-
  Verification development for the MetaMCP gateway (Rust sources under src/).
  The definitions below are a shallow embedding of the relevant program
  fragments: pure functions are translated directly; database and network
  effects are made explicit (the database result and the backend transport
  are passed in as values / oracles); imperative loops with early return
  become structural recursion with the same branch order.
-/

namespace MetaMcp

/-- JSON values, modelling serde_json::Value. Numbers are modelled as
integers (no claim depends on non-integer numerics); objects are ordered
field lists, looked up by first match, as serde_json maps behave for the
accesses the program performs. -/
inductive Json where
  | null
  | bool (b : Bool)
  | num (n : Int)
  | str (s : String)
  | arr (items : List Json)
  | obj (fields : List (String × Json))
deriving Inhabited

/-- Field lookup on a JSON object, modelling Value::get(key). -/
def Json.getField : Json → String → Option Json
  | .obj fields, key => fields.lookup key
  | _, _ => none

/-- Value::as_str. -/
def Json.asStr : Json → Option String
  | .str s => some s
  | _ => none

/-- Value::as_array. -/
def Json.asArr : Json → Option (List Json)
  | .arr items => some items
  | _ => none

/-- Insertion into an ordered field list, modelling serde_json Map::insert:
an existing key keeps its position and gets the new value, a new key is
appended. -/
def insertField : List (String × Json) → String → Json → List (String × Json)
  | [], key, v => [(key, v)]
  | (k, w) :: rest, key, v =>
    if k = key then (k, v) :: rest else (k, w) :: insertField rest key v

/-- Object insertion (as_object_mut followed by insert); a non-object value
is left unchanged, as the Rust `if let Some(obj)` guard does. -/
def Json.insert : Json → String → Json → Json
  | .obj fields, key, v => .obj (insertField fields key v)
  | j, _, _ => j

/-- JSON-RPC request identifier (string or number), from
src/src/mcp/protocol/types.rs (RequestId). -/
inductive RequestId where
  | str (s : String)
  | num (n : Int)
deriving DecidableEq, Repr

/-- JSON-RPC error object (JsonRpcError). -/
structure JsonRpcError where
  code : Int
  message : String
  data : Option Json

/-- JSON-RPC request envelope (JsonRpcRequest); id absent means
notification. -/
structure JsonRpcRequest where
  jsonrpc : String
  id : Option RequestId
  method : String
  params : Option Json

/-- JSON-RPC response envelope (JsonRpcResponse). -/
structure JsonRpcResponse where
  jsonrpc : String
  id : RequestId
  result : Option Json
  error : Option JsonRpcError

/-- JsonRpcRequest::new. -/
def JsonRpcRequest.new (id : RequestId) (method : String) (params : Option Json) :
    JsonRpcRequest :=
  { jsonrpc := "2.0", id := some id, method := method, params := params }

/-- JsonRpcResponse::success. -/
def JsonRpcResponse.mkSuccess (id : RequestId) (result : Json) : JsonRpcResponse :=
  { jsonrpc := "2.0", id := id, result := some result, error := none }

/-- JsonRpcResponse::error. -/
def JsonRpcResponse.mkError (id : RequestId) (code : Int) (message : String)
    (data : Option Json) : JsonRpcResponse :=
  { jsonrpc := "2.0", id := id, result := none,
    error := some { code := code, message := message, data := data } }

/-- Backend server descriptor, from src/src/db/models/mcp_server.rs
(McpServer). UUIDs are modelled as naturals; the command/args/env fields and
timestamps are omitted because no routed operation reads them. -/
structure McpServer where
  id : Nat
  name : String
  url : String
  protocol : String
  is_active : Bool
deriving DecidableEq, Repr

/-- Application errors, from src/src/utils/error.rs (AppError), restricted
to the variants the embedded fragments construct. -/
inductive AppError where
  | Unauthorized (msg : String)
  | NotFound (msg : String)
  | Internal (msg : String)
  | Database (msg : String)
  | Jwt (msg : String)
  | McpProtocol (msg : String)
  | Process (msg : String)
  | SecurityViolation (msg : String)
deriving DecidableEq, Repr

/-- Display form of AppError, from the thiserror attributes in
src/src/utils/error.rs. -/
def AppError.display : AppError → String
  | .Unauthorized m => "Authentication failed: " ++ m
  | .NotFound m => "Not found: " ++ m
  | .Internal m => "Internal server error: " ++ m
  | .Database m => "Database error: " ++ m
  | .Jwt m => "JWT error: " ++ m
  | .McpProtocol m => "MCP protocol error: " ++ m
  | .Process m => "Process error: " ++ m
  | .SecurityViolation m => "Security violation: " ++ m

/-- Prefix test str::starts_with, modelled on the character sequence: for
valid UTF-8 strings, byte-prefix equality (what Rust checks) coincides with
character-prefix equality. -/
def strStartsWith (s pfx : String) : Bool :=
  pfx.data.isPrefixOf s.data

/-- The backend HTTP transport (McpProxy::forward_http): one POST exchange
against one backend, yielding either a parsed response envelope or a
transport-level AppError (connection failure, non-2xx status, parse
failure). Modelled as an oracle. -/
def Net : Type := McpServer → JsonRpcRequest → Except AppError JsonRpcResponse

/-- Request envelope the proxy forwards for tools/list
(src/src/mcp/proxy.rs list_tools): identifier 1. -/
def list_tools_request : JsonRpcRequest :=
  JsonRpcRequest.new (.num 1) "tools/list" none

/-- Request envelope the proxy forwards for tools/call
(src/src/mcp/proxy.rs call_tool): identifier 1. -/
def call_tool_request (tool_name : String) (arguments : Json) : JsonRpcRequest :=
  JsonRpcRequest.new (.num 1) "tools/call"
    (some (.obj [("name", .str tool_name), ("arguments", arguments)]))

/-- Request envelope the proxy forwards for resources/list
(src/src/mcp/proxy.rs list_resources): identifier 1. -/
def list_resources_request : JsonRpcRequest :=
  JsonRpcRequest.new (.num 1) "resources/list" none

/-- Request envelope the proxy forwards for prompts/list
(src/src/mcp/proxy.rs list_prompts): identifier 1. -/
def list_prompts_request : JsonRpcRequest :=
  JsonRpcRequest.new (.num 1) "prompts/list" none

/-- Request envelope the gateway forwards for resources/read
(src/src/api/handlers/mcp_gateway.rs handle_resources_read): identifier 1. -/
def resources_read_request (original_uri : String) : JsonRpcRequest :=
  JsonRpcRequest.new (.num 1) "resources/read"
    (some (.obj [("uri", .str original_uri)]))

/-- Request envelope the gateway forwards for prompts/get
(src/src/api/handlers/mcp_gateway.rs handle_prompts_get): identifier 1. -/
def prompts_get_request (original_name : String) (arguments : Json) : JsonRpcRequest :=
  JsonRpcRequest.new (.num 1) "prompts/get"
    (some (.obj [("name", .str original_name), ("arguments", arguments)]))

/-- McpProxy::forward_request: dispatch on the descriptor protocol; only
http is implemented. -/
def forward_request (net : Net) (server : McpServer) (request : JsonRpcRequest) :
    Except AppError JsonRpcResponse :=
  match server.protocol with
  | "http" => net server request
  | "sse" => .error (.McpProtocol "SSE protocol not yet implemented")
  | "stdio" => .error (.McpProtocol "stdio protocol not yet implemented")
  | p => .error (.McpProtocol ("Unknown protocol: " ++ p))

/-- McpProxy::list_tools. -/
def list_tools (net : Net) (server : McpServer) : Except AppError (List Json) :=
  match forward_request net server list_tools_request with
  | .error e => .error e
  | .ok response =>
    match response.error with
    | some err =>
      .error (.McpProtocol
        ("MCP error: " ++ err.message ++ " (code: " ++ toString err.code ++ ")"))
    | none =>
      match response.result with
      | none => .error (.McpProtocol "Empty response from MCP server")
      | some result =>
        .ok ((result.getField "tools" >>= Json.asArr).getD [])

/-- McpProxy::call_tool. -/
def call_tool (net : Net) (server : McpServer) (tool_name : String)
    (arguments : Json) : Except AppError Json :=
  match forward_request net server (call_tool_request tool_name arguments) with
  | .error e => .error e
  | .ok response =>
    match response.error with
    | some err =>
      .error (.McpProtocol
        ("Tool execution failed: " ++ err.message ++ " (code: " ++
          toString err.code ++ ")"))
    | none =>
      match response.result with
      | some r => .ok r
      | none => .error (.McpProtocol "Empty response from tool call")

/-- Per-tool rewriting step of handle_tools_list: tools carrying a string
name field are kept with the name rewritten to servername_toolname and the
metadata fields attached; tools without one are skipped. -/
def rewriteTool (server : McpServer) (tool : Json) : Option Json :=
  match tool.getField "name" >>= Json.asStr with
  | some name =>
    let prefixed_name := server.name ++ "_" ++ name
    some (((tool.insert "name" (.str prefixed_name)).insert
      "_original_name" (.str name)).insert "_server_id" (.str (toString server.id)))
  | none => none

/-- Aggregation loop of handle_tools_list
(src/src/api/handlers/mcp_gateway.rs): per backend, a failed listing is
skipped with a warning; a successful listing contributes its named tools
rewritten. -/
def aggregate_tools (net : Net) : List McpServer → List Json
  | [] => []
  | server :: rest =>
    (match list_tools net server with
     | .ok tools => tools.filterMap (rewriteTool server)
     | .error _ => []) ++ aggregate_tools net rest

/-- handle_tools_list, with the database listing result (list_all(false),
the active descriptors in listing order) passed in explicitly. -/
def handle_tools_list (db : Except AppError (List McpServer)) (net : Net)
    (id : RequestId) : JsonRpcResponse :=
  match db with
  | .error e =>
    JsonRpcResponse.mkError id (-32000) ("Database error: " ++ e.display) none
  | .ok servers =>
    JsonRpcResponse.mkSuccess id (.obj [("tools", .arr (aggregate_tools net servers))])

/-- Routing loop of handle_tools_call: first backend whose name plus
underscore prefixes the requested name receives the call with the prefix
stripped; the backend result is returned as success and a backend-side
failure is wrapped as JSON-RPC error -32000. -/
def route_tool_call (net : Net) (id : RequestId) (tool_name : String)
    (arguments : Json) : List McpServer → JsonRpcResponse
  | [] =>
    JsonRpcResponse.mkError id (-32602) ("Unknown tool: " ++ tool_name) none
  | server :: rest =>
    let pfx := server.name ++ "_"
    if strStartsWith tool_name pfx then
      let original_tool_name := tool_name.drop pfx.length
      match call_tool net server original_tool_name arguments with
      | .ok result => JsonRpcResponse.mkSuccess id result
      | .error e =>
        JsonRpcResponse.mkError id (-32000) ("Tool call failed: " ++ e.display) none
    else route_tool_call net id tool_name arguments rest

/-- handle_tools_call (src/src/api/handlers/mcp_gateway.rs). -/
def handle_tools_call (db : Except AppError (List McpServer)) (net : Net)
    (id : RequestId) (params : Option Json) : JsonRpcResponse :=
  match params with
  | none => JsonRpcResponse.mkError id (-32602) "Missing params" none
  | some params =>
    match params.getField "name" >>= Json.asStr with
    | none => JsonRpcResponse.mkError id (-32602) "Missing tool name" none
    | some tool_name =>
      let arguments := (params.getField "arguments").getD (.obj [])
      match db with
      | .error e =>
        JsonRpcResponse.mkError id (-32000) ("Database error: " ++ e.display) none
      | .ok servers => route_tool_call net id tool_name arguments servers

/-- Routing loop of handle_resources_read: the separator is a colon; a
backend response carrying a result is returned as success, one carrying an
error object passes code, message and data through; a response with
neither falls through to the remaining backends (the Rust loop simply
continues); a transport failure is wrapped as -32000. -/
def route_resource_read (net : Net) (id : RequestId) (uri : String) :
    List McpServer → JsonRpcResponse
  | [] =>
    JsonRpcResponse.mkError id (-32602) ("Unknown resource: " ++ uri) none
  | server :: rest =>
    let pfx := server.name ++ ":"
    if strStartsWith uri pfx then
      let original_uri := uri.drop pfx.length
      match forward_request net server (resources_read_request original_uri) with
      | .ok response =>
        match response.result with
        | some result => JsonRpcResponse.mkSuccess id result
        | none =>
          match response.error with
          | some err => JsonRpcResponse.mkError id err.code err.message err.data
          | none => route_resource_read net id uri rest
      | .error e =>
        JsonRpcResponse.mkError id (-32000) ("Resource read failed: " ++ e.display) none
    else route_resource_read net id uri rest

/-- handle_resources_read (src/src/api/handlers/mcp_gateway.rs). -/
def handle_resources_read (db : Except AppError (List McpServer)) (net : Net)
    (id : RequestId) (params : Option Json) : JsonRpcResponse :=
  match params with
  | none => JsonRpcResponse.mkError id (-32602) "Missing params" none
  | some params =>
    match params.getField "uri" >>= Json.asStr with
    | none => JsonRpcResponse.mkError id (-32602) "Missing uri" none
    | some uri =>
      match db with
      | .error e =>
        JsonRpcResponse.mkError id (-32000) ("Database error: " ++ e.display) none
      | .ok servers => route_resource_read net id uri servers

/-- Routing loop of handle_prompts_get: underscore separator, prompts/get
forwarded with the stripped name and the given arguments; response handling
is identical to route_resource_read. -/
def route_prompt_get (net : Net) (id : RequestId) (prompt_name : String)
    (arguments : Json) : List McpServer → JsonRpcResponse
  | [] =>
    JsonRpcResponse.mkError id (-32602) ("Unknown prompt: " ++ prompt_name) none
  | server :: rest =>
    let pfx := server.name ++ "_"
    if strStartsWith prompt_name pfx then
      let original_name := prompt_name.drop pfx.length
      match forward_request net server (prompts_get_request original_name arguments) with
      | .ok response =>
        match response.result with
        | some result => JsonRpcResponse.mkSuccess id result
        | none =>
          match response.error with
          | some err => JsonRpcResponse.mkError id err.code err.message err.data
          | none => route_prompt_get net id prompt_name arguments rest
      | .error e =>
        JsonRpcResponse.mkError id (-32000) ("Prompt get failed: " ++ e.display) none
    else route_prompt_get net id prompt_name arguments rest

/-- handle_prompts_get (src/src/api/handlers/mcp_gateway.rs). -/
def handle_prompts_get (db : Except AppError (List McpServer)) (net : Net)
    (id : RequestId) (params : Option Json) : JsonRpcResponse :=
  match params with
  | none => JsonRpcResponse.mkError id (-32602) "Missing params" none
  | some params =>
    match params.getField "name" >>= Json.asStr with
    | none => JsonRpcResponse.mkError id (-32602) "Missing prompt name" none
    | some prompt_name =>
      let arguments := (params.getField "arguments").getD (.obj [])
      match db with
      | .error e =>
        JsonRpcResponse.mkError id (-32000) ("Database error: " ++ e.display) none
      | .ok servers => route_prompt_get net id prompt_name arguments servers

/-- Tools array carried by a tools/list response. -/
def toolsArray (resp : JsonRpcResponse) : List Json :=
  ((resp.result.bind (fun r => r.getField "tools")) >>= Json.asArr).getD []

/-- Name field of a tool object. -/
def toolItemName (tool : Json) : Option String :=
  tool.getField "name" >>= Json.asStr

/-- Names of the tools of one backend listing that carry a string name
field; the aggregation keeps exactly these. -/
def namedTools (tools : List Json) : List String :=
  tools.filterMap toolItemName

/-- Example backend descriptor used in concrete evaluations. -/
def alphaServer : McpServer :=
  { id := 1, name := "alpha", url := "http://alpha.example",
    protocol := "http", is_active := true }

/-- Transport oracle whose backend answers every request with a JSON-RPC
error object of code -32050 and message boom. -/
def errNet : Net := fun _ _ =>
  .ok { jsonrpc := "2.0", id := .num 1, result := none,
        error := some { code := -32050, message := "boom", data := none } }

/-- Transport oracle whose backend exports exactly one tool named echo. -/
def echoNet : Net := fun _ _ =>
  .ok (JsonRpcResponse.mkSuccess (.num 1)
    (.obj [("tools", .arr [.obj [("name", .str "echo")]])]))

/-- Transport oracle whose backend exports exactly one tool object that
carries no name field. -/
def namelessNet : Net := fun _ _ =>
  .ok (JsonRpcResponse.mkSuccess (.num 1) (.obj [("tools", .arr [Json.obj []])]))

/-- Salted memory-hard hash record (the argon2 PHC string of
src/src/auth/api_key.rs). The idealised password-hash contract is modelled
by keeping the salt and the hashed key: verification of a presented value
succeeds exactly when it equals the hashed one. -/
structure KeyHash where
  salt : Nat
  key : String
deriving DecidableEq, Repr

/-- ApiKeyEncryption::hash_api_key with the fresh random salt made an
explicit argument. -/
def hash_api_key (salt : Nat) (api_key : String) : KeyHash :=
  { salt := salt, key := api_key }

/-- ApiKeyEncryption::verify_api_key: argon2 verification against a salted
hash succeeds exactly on the original plaintext. -/
def verify_api_key (api_key : String) (hash : KeyHash) : Bool :=
  api_key == hash.key

/-- Credential record, from src/src/db/models/api_key.rs (ApiKey); the
encrypted blob and timestamps are omitted because the authentication and
validation paths do not read them. UUIDs are modelled as naturals. -/
structure ApiKey where
  id : Nat
  name : String
  key_hash : KeyHash
  is_active : Bool
deriving DecidableEq, Repr

/-- JWT claim set, from src/src/auth/jwt.rs (Claims); sub holds the
credential UUID directly (the to_string / parse_str round trip of the Rust
code is collapsed), timestamps are seconds, jti is the fresh token
identifier. -/
structure Claims where
  sub : Nat
  exp : Nat
  iat : Nat
  jti : Nat
deriving DecidableEq, Repr

/-- Signed bearer token: the claim set together with its HMAC-SHA256
signature; the ideal unforgeable MAC is modelled as the pair of the signing
secret and the signed payload. -/
structure Jwt where
  claims : Claims
  sig : String × Claims
deriving DecidableEq, Repr

/-- Token validity duration in minutes (JwtService::new). -/
def token_duration_minutes : Nat := 15

/-- JwtService::generate_token at time now (seconds since epoch), with the
fresh token identifier jti: expiry is now plus 15 minutes. -/
def generate_token (secret : String) (now : Nat) (jti : Nat) (api_key_id : Nat) : Jwt :=
  let claims : Claims :=
    { sub := api_key_id, exp := now + token_duration_minutes * 60,
      iat := now, jti := jti }
  { claims := claims, sig := (secret, claims) }

/-- JwtService::validate_token at time now: the decoding library verifies
the signature against the secret and rejects an expired token; success
returns the claim set. -/
def jwt_validate_token (secret : String) (now : Nat) (token : Jwt) :
    Except AppError Claims :=
  if token.sig = (secret, token.claims) ∧ now < token.claims.exp then
    .ok token.claims
  else
    .error (.Jwt "invalid token")

/-- ApiKeyRepository::list_all(false): the active records in listing
order. -/
def api_keys_list_active (db : List ApiKey) : List ApiKey :=
  db.filter (fun k => k.is_active)

/-- ApiKeyRepository::find_by_id. -/
def api_keys_find_by_id (db : List ApiKey) (key_id : Nat) : Option ApiKey :=
  db.find? (fun k => k.id == key_id)

/-- AuthService::authenticate_with_api_key: list the active keys, verify
the presented value against each hash in order, fail unauthorized when
nothing matches or the match is inactive, otherwise issue a bearer token
bound to the matched UUID. The last-used-timestamp update is a store write
no claim reads and is elided. -/
def authenticate_with_api_key (secret : String) (now : Nat) (jti : Nat)
    (db : List ApiKey) (api_key : String) : Except AppError Jwt :=
  let keys := api_keys_list_active db
  match keys.find? (fun k => verify_api_key api_key k.key_hash) with
  | none => .error (.Unauthorized "Invalid API key")
  | some stored_key =>
    if stored_key.is_active = false then
      .error (.Unauthorized "API key is inactive")
    else
      .ok (generate_token secret now jti stored_key.id)

/-- AuthService::validate_token: verify signature and expiry, look the
subject up in the store, reject a missing or inactive credential. -/
def validate_token (secret : String) (now : Nat) (db : List ApiKey)
    (token : Jwt) : Except AppError Claims :=
  match jwt_validate_token secret now token with
  | .error e => .error e
  | .ok claims =>
    match api_keys_find_by_id db claims.sub with
    | none => .error (.Unauthorized "API key not found")
    | some api_key =>
      if api_key.is_active = false then
        .error (.Unauthorized "API key has been revoked")
      else
        .ok claims

/-- Inactive example credential for concrete evaluations. -/
def inactiveKey : ApiKey :=
  { id := 5, name := "k1", key_hash := hash_api_key 3 "mcp_secretvalue",
    is_active := false }

/-- Active example credential for concrete evaluations. -/
def activeKey : ApiKey :=
  { id := 8, name := "k2", key_hash := hash_api_key 4 "mcp_livevalue",
    is_active := true }

/-- Streamed event vocabulary, from src/src/streaming/manager.rs
(StreamEvent). The f32 cpu and memory payloads of SystemHealth are opaque
to the filter logic and modelled as integers. -/
inductive StreamEvent where
  | mcpServerStarted (server_id : String) (name : String)
  | mcpServerStopped (server_id : String) (reason : String)
  | mcpToolExecuted (server_id : String) (tool : String) (status : String)
  | mcpMessage (server_id : String) (message : Json)
  | systemHealth (cpu : Int) (memory : Int) (active_servers : Nat)
  | errorEvent (code : String) (message : String)

/-- Subscription filter, from src/src/streaming/manager.rs (EventFilters):
an optional list of event type tags, a list of server ids (serde default:
empty) and the include_system flag (serde default: false). -/
structure EventFilters where
  event_types : Option (List String)
  server_ids : List String
  include_system : Bool

/-- Event type tag (the inline match of should_send). -/
def event_type_tag : StreamEvent → String
  | .mcpServerStarted _ _ => "mcp_server_started"
  | .mcpServerStopped _ _ => "mcp_server_stopped"
  | .mcpToolExecuted _ _ _ => "mcp_tool_executed"
  | .mcpMessage _ _ => "mcp_message"
  | .systemHealth _ _ _ => "system_health"
  | .errorEvent _ _ => "error"

/-- Server id carried by an event; none for system health and error events
(the inline match of should_send). -/
def event_server_id : StreamEvent → Option String
  | .mcpServerStarted sid _ => some sid
  | .mcpServerStopped sid _ => some sid
  | .mcpToolExecuted sid _ _ => some sid
  | .mcpMessage sid _ => some sid
  | .systemHealth _ _ _ => none
  | .errorEvent _ _ => none

/-- The matches macro of the system-health check in should_send. -/
def is_system_health : StreamEvent → Bool
  | .systemHealth _ _ _ => true
  | _ => false

/-- EventFilters::should_send; the early-return chain of the Rust code is
the conjunction of its three checks, in source order: a present type list
must contain the tag; a system-health event needs include_system; a
nonempty server-id list must contain the event server id when the event
carries one. -/
def should_send (f : EventFilters) (e : StreamEvent) : Bool :=
  (match f.event_types with
   | some types => types.contains (event_type_tag e)
   | none => true) &&
  (!(!f.include_system && is_system_health e)) &&
  (if f.server_ids.isEmpty then true
   else
     match event_server_id e with
     | some sid => f.server_ids.contains sid
     | none => true)

/-- ShouldSend as the specification words it (for claim C7): a type set
that is empty or absent admits every type; a system-health event needs
include_system; the backend filter applies only to events carrying a
backend id. -/
def spec_should_send (f : EventFilters) (e : StreamEvent) : Bool :=
  (match f.event_types with
   | none => true
   | some types => types.contains (event_type_tag e) || types.isEmpty) &&
  (!(is_system_health e) || f.include_system) &&
  (match event_server_id e with
   | none => true
   | some sid => f.server_ids.isEmpty || f.server_ids.contains sid)

/-- Suffix test str::ends_with on the character sequence. -/
def strEndsWith (s sfx : String) : Bool :=
  sfx.data.isSuffixOf s.data

/-- URL validation errors, from src/src/utils/security.rs
(UrlValidationError). -/
inductive UrlValidationError where
  | InvalidUrl (msg : String)
  | InvalidScheme (scheme : String)
  | LocalhostBlocked
  | PrivateIpBlocked
  | MetadataEndpointBlocked
  | LinkLocalBlocked
  | UnresolvableHost
deriving DecidableEq, Repr

/-- Literal IPv4 address as four octets. -/
structure Ipv4Addr where
  a : Fin 256
  b : Fin 256
  c : Fin 256
  d : Fin 256
deriving DecidableEq, Repr

/-- Literal IPv6 address as eight 16-bit segments. -/
structure Ipv6Addr where
  s0 : Fin 65536
  s1 : Fin 65536
  s2 : Fin 65536
  s3 : Fin 65536
  s4 : Fin 65536
  s5 : Fin 65536
  s6 : Fin 65536
  s7 : Fin 65536
deriving DecidableEq, Repr

/-- Ipv4Addr::is_loopback: 127.0.0.0/8. -/
def Ipv4Addr.is_loopback (ip : Ipv4Addr) : Bool :=
  ip.a.val == 127

/-- Ipv4Addr::is_private: 10/8, 172.16/12, 192.168/16. -/
def Ipv4Addr.is_private (ip : Ipv4Addr) : Bool :=
  ip.a.val == 10 ||
  (ip.a.val == 172 && decide (16 ≤ ip.b.val) && decide (ip.b.val ≤ 31)) ||
  (ip.a.val == 192 && ip.b.val == 168)

/-- Ipv4Addr::is_link_local: 169.254/16. -/
def Ipv4Addr.is_link_local (ip : Ipv4Addr) : Bool :=
  ip.a.val == 169 && ip.b.val == 254

/-- Ipv4Addr::is_unspecified: 0.0.0.0. -/
def Ipv4Addr.is_unspecified (ip : Ipv4Addr) : Bool :=
  ip.a.val == 0 && ip.b.val == 0 && ip.c.val == 0 && ip.d.val == 0

/-- Ipv4Addr::is_broadcast: 255.255.255.255. -/
def Ipv4Addr.is_broadcast (ip : Ipv4Addr) : Bool :=
  ip.a.val == 255 && ip.b.val == 255 && ip.c.val == 255 && ip.d.val == 255

/-- Ipv4Addr::is_documentation: 192.0.2.0/24, 198.51.100.0/24,
203.0.113.0/24. -/
def Ipv4Addr.is_documentation (ip : Ipv4Addr) : Bool :=
  (ip.a.val == 192 && ip.b.val == 0 && ip.c.val == 2) ||
  (ip.a.val == 198 && ip.b.val == 51 && ip.c.val == 100) ||
  (ip.a.val == 203 && ip.b.val == 0 && ip.c.val == 113)

/-- validate_ipv4 from src/src/utils/security.rs, checks in source
order. -/
def validate_ipv4 (ip : Ipv4Addr) : Except UrlValidationError Unit :=
  if ip.is_loopback then .error .LocalhostBlocked
  else if ip.is_private then .error .PrivateIpBlocked
  else if ip.is_link_local then .error .LinkLocalBlocked
  else if ip.is_unspecified then .error .LocalhostBlocked
  else if ip.is_broadcast then .error .PrivateIpBlocked
  else if ip.is_documentation then .error .PrivateIpBlocked
  else if ip.a.val == 100 && decide (64 ≤ ip.b.val) && decide (ip.b.val ≤ 127) then
    .error .PrivateIpBlocked
  else if ip.a.val == 192 && ip.b.val == 0 && ip.c.val == 0 then
    .error .PrivateIpBlocked
  else if ip.a.val == 198 && (ip.b.val == 18 || ip.b.val == 19) then
    .error .PrivateIpBlocked
  else if decide (224 ≤ ip.a.val) && decide (ip.a.val ≤ 239) then
    .error .PrivateIpBlocked
  else if decide (240 ≤ ip.a.val) then .error .PrivateIpBlocked
  else .ok ()

/-- Ipv6Addr::is_loopback: ::1. -/
def Ipv6Addr.is_loopback (ip : Ipv6Addr) : Bool :=
  ip.s0.val == 0 && ip.s1.val == 0 && ip.s2.val == 0 && ip.s3.val == 0 &&
  ip.s4.val == 0 && ip.s5.val == 0 && ip.s6.val == 0 && ip.s7.val == 1

/-- Ipv6Addr::is_unspecified: ::. -/
def Ipv6Addr.is_unspecified (ip : Ipv6Addr) : Bool :=
  ip.s0.val == 0 && ip.s1.val == 0 && ip.s2.val == 0 && ip.s3.val == 0 &&
  ip.s4.val == 0 && ip.s5.val == 0 && ip.s6.val == 0 && ip.s7.val == 0

/-- Octets of the IPv4 address held in the last two segments of an
IPv4-mapped IPv6 address (big-endian split of each segment). -/
def mappedV4 (s6 s7 : Fin 65536) : Ipv4Addr :=
  { a := ⟨s6.val / 256, by have := s6.isLt; omega⟩,
    b := ⟨s6.val % 256, by have := s6.isLt; omega⟩,
    c := ⟨s7.val / 256, by have := s7.isLt; omega⟩,
    d := ⟨s7.val % 256, by have := s7.isLt; omega⟩ }

/-- Ipv6Addr::to_ipv4_mapped: some exactly for ::ffff:a.b.c.d. -/
def Ipv6Addr.to_ipv4_mapped (ip : Ipv6Addr) : Option Ipv4Addr :=
  if ip.s0.val == 0 && ip.s1.val == 0 && ip.s2.val == 0 && ip.s3.val == 0 &&
     ip.s4.val == 0 && ip.s5.val == 65535
  then some (mappedV4 ip.s6 ip.s7) else none

/-- Unique-local, link-local and multicast checks of validate_ipv6 (the
branch for a non-mapped address). The bit-mask comparisons of the source on
the first segment are expressed through division: for a 16-bit value x,
the Rust mask x AND 0xfe00 equals x / 512 * 512 (top 7 bits kept), x AND
0xffc0 equals x / 64 * 64 (top 10 bits) and x AND 0xff00 equals
x / 256 * 256 (top 8 bits); the compared constants 0xfc00, 0xfe80 and
0xff00 are 64512, 65152 and 65280. -/
def validate_ipv6_segments (ip : Ipv6Addr) : Except UrlValidationError Unit :=
  if ip.s0.val / 512 * 512 == 64512 then .error .PrivateIpBlocked
  else if ip.s0.val / 64 * 64 == 65152 then .error .LinkLocalBlocked
  else if ip.s0.val / 256 * 256 == 65280 then .error .PrivateIpBlocked
  else .ok ()

/-- validate_ipv6 from src/src/utils/security.rs, checks in source order:
loopback, unspecified, recursion into the IPv4 rules for an IPv4-mapped
address, then the segment-mask checks. -/
def validate_ipv6 (ip : Ipv6Addr) : Except UrlValidationError Unit :=
  if ip.is_loopback then .error .LocalhostBlocked
  else if ip.is_unspecified then .error .LocalhostBlocked
  else (ip.to_ipv4_mapped).elim (validate_ipv6_segments ip) validate_ipv4

/-- Literal IP address. -/
inductive IpAddr where
  | v4 (ip : Ipv4Addr)
  | v6 (ip : Ipv6Addr)
deriving DecidableEq, Repr

/-- Host of a parsed URL: a literal IPv4 (dotted decimal host string), a
literal IPv6 (rendered in brackets by the url crate), or a name. -/
inductive Host where
  | v4 (ip : Ipv4Addr)
  | v6 (ip : Ipv6Addr)
  | name (host : String)
deriving DecidableEq, Repr

/-- Parsed URL: scheme and host. Parse failure (InvalidUrl, no host) is
upstream of this representation; port and path play no role in the
embedded checks. -/
structure Url where
  scheme : String
  host : Host
deriving DecidableEq, Repr

/-- is_localhost from src/src/utils/security.rs, on the parsed host. On a
name the string comparisons of the source apply to the lowercased host.
For a literal IPv4 host the canonical dotted-decimal rendering makes the
checks structural: equality with 127.0.0.1 or the 127. prefix hold exactly
when the first octet is 127, equality with 0.0.0.0 exactly for the
unspecified address, and no digits-and-dots rendering matches the name or
suffix patterns. For a literal IPv6 host the bracketed rendering matches
only the [::1] comparison, exactly for the loopback address. -/
def is_localhost : Host → Bool
  | .v4 ip => ip.a.val == 127 || ip.is_unspecified
  | .v6 ip => ip.is_loopback
  | .name h =>
    let hl := h.toLower
    hl == "localhost" || hl == "localhost.localdomain" || hl == "127.0.0.1" ||
    hl == "::1" || hl == "[::1]" || hl == "0.0.0.0" ||
    strStartsWith hl "127." || strEndsWith hl ".localhost" ||
    strEndsWith hl ".local"

/-- is_cloud_metadata_endpoint from src/src/utils/security.rs, on the
parsed host. A literal IPv4 host matches only the 169.254.169.254
comparison; a bracketed IPv6 rendering matches none of the patterns. -/
def is_cloud_metadata_endpoint : Host → Bool
  | .v4 ip => ip.a.val == 169 && ip.b.val == 254 && ip.c.val == 169 && ip.d.val == 254
  | .v6 _ => false
  | .name h =>
    let hl := h.toLower
    hl == "metadata.google.internal" || hl == "metadata.goog" ||
    hl == "kubernetes.default" || hl == "kubernetes.default.svc" ||
    hl == "host.docker.internal" || strEndsWith hl ".internal" ||
    strEndsWith hl ".local"

/-- validate_ip_address from src/src/utils/security.rs. -/
def validate_ip_address : IpAddr → Except UrlValidationError Unit
  | .v4 ip => validate_ipv4 ip
  | .v6 ip => validate_ipv6 ip

/-- Resolved-address validation loop of validate_hostname. -/
def validate_addrs : List IpAddr → Except UrlValidationError Unit
  | [] => .ok ()
  | addr :: rest =>
    match validate_ip_address addr with
    | .ok _ => validate_addrs rest
    | .error e => .error e

/-- validate_hostname from src/src/utils/security.rs, with name resolution
as an oracle: every resolved address is validated; a resolution failure is
allowed with a logged warning. -/
def validate_hostname (resolve : String → Option (List IpAddr)) (host : String) :
    Except UrlValidationError Unit :=
  match resolve host with
  | some addrs => validate_addrs addrs
  | none => .ok ()

/-- validate_url_for_ssrf from src/src/utils/security.rs on the parsed
URL: scheme check, localhost check, cloud-metadata check, then IP
validation. A literal IPv4 host parses as an IpAddr and goes through
validate_ip_address; a bracketed literal IPv6 host fails the IpAddr parse
and reaches validate_ipv6 through the socket-address resolution of
validate_hostname, which resolves the literal to itself; a name goes
through resolution. -/
def validate_url_for_ssrf (resolve : String → Option (List IpAddr)) (url : Url) :
    Except UrlValidationError Unit :=
  if url.scheme ≠ "http" ∧ url.scheme ≠ "https" then
    .error (.InvalidScheme url.scheme)
  else if is_localhost url.host then .error .LocalhostBlocked
  else if is_cloud_metadata_endpoint url.host then .error .MetadataEndpointBlocked
  else
    match url.host with
    | .v4 ip => validate_ipv4 ip
    | .v6 ip => validate_ipv6 ip
    | .name h => validate_hostname resolve h

/-- Blocked IPv4 ranges as the specification words them (claim C9):
loopback, private, link-local, carrier-grade NAT 100.64/10, 192.0.0/24,
benchmarking 198.18/15, documentation, multicast, reserved-future,
broadcast, unspecified. -/
def spec_blocked_v4 (ip : Ipv4Addr) : Prop :=
  ip.a.val = 127 ∨
  ip.a.val = 10 ∨ (ip.a.val = 172 ∧ 16 ≤ ip.b.val ∧ ip.b.val ≤ 31) ∨
  (ip.a.val = 192 ∧ ip.b.val = 168) ∨
  (ip.a.val = 169 ∧ ip.b.val = 254) ∨
  (ip.a.val = 100 ∧ 64 ≤ ip.b.val ∧ ip.b.val ≤ 127) ∨
  (ip.a.val = 192 ∧ ip.b.val = 0 ∧ ip.c.val = 0) ∨
  (ip.a.val = 198 ∧ (ip.b.val = 18 ∨ ip.b.val = 19)) ∨
  (ip.a.val = 192 ∧ ip.b.val = 0 ∧ ip.c.val = 2) ∨
  (ip.a.val = 198 ∧ ip.b.val = 51 ∧ ip.c.val = 100) ∨
  (ip.a.val = 203 ∧ ip.b.val = 0 ∧ ip.c.val = 113) ∨
  (224 ≤ ip.a.val ∧ ip.a.val ≤ 239) ∨
  240 ≤ ip.a.val ∨
  (ip.a.val = 255 ∧ ip.b.val = 255 ∧ ip.c.val = 255 ∧ ip.d.val = 255) ∨
  (ip.a.val = 0 ∧ ip.b.val = 0 ∧ ip.c.val = 0 ∧ ip.d.val = 0)

/-- Blocked IPv6 addresses as the specification words them (claim C9):
loopback, unspecified, unique-local fc00::/7, link-local fe80::/10,
multicast ff00::/8, and IPv4-mapped addresses whose IPv4 address falls in
the blocked IPv4 ranges. -/
def spec_blocked_v6 (ip : Ipv6Addr) : Prop :=
  (ip.s0.val = 0 ∧ ip.s1.val = 0 ∧ ip.s2.val = 0 ∧ ip.s3.val = 0 ∧
   ip.s4.val = 0 ∧ ip.s5.val = 0 ∧ ip.s6.val = 0 ∧ ip.s7.val = 1) ∨
  (ip.s0.val = 0 ∧ ip.s1.val = 0 ∧ ip.s2.val = 0 ∧ ip.s3.val = 0 ∧
   ip.s4.val = 0 ∧ ip.s5.val = 0 ∧ ip.s6.val = 0 ∧ ip.s7.val = 0) ∨
  (64512 ≤ ip.s0.val ∧ ip.s0.val < 65024) ∨
  (65152 ≤ ip.s0.val ∧ ip.s0.val < 65216) ∨
  65280 ≤ ip.s0.val ∨
  (ip.s0.val = 0 ∧ ip.s1.val = 0 ∧ ip.s2.val = 0 ∧ ip.s3.val = 0 ∧
   ip.s4.val = 0 ∧ ip.s5.val = 65535 ∧ spec_blocked_v4 (mappedV4 ip.s6 ip.s7))

/-- Create-request body, from src/src/db/models/mcp_server.rs
(CreateMcpServerRequest); the args and env maps are omitted because the
embedded paths do not read them. -/
structure CreateMcpServerRequest where
  name : String
  url : String
  protocol : String
  command : Option String
deriving DecidableEq, Repr

/-- McpServerRepository::create: inserts a new active record with a fresh
UUID (made an explicit argument); an empty protocol string defaults to
http. The database write is modelled as succeeding. -/
def mcp_servers_create (state : List McpServer) (fresh_id : Nat)
    (request : CreateMcpServerRequest) : List McpServer × McpServer :=
  let protocol := if request.protocol.isEmpty then "http" else request.protocol
  let server : McpServer :=
    { id := fresh_id, name := request.name, url := request.url,
      protocol := protocol, is_active := true }
  (state ++ [server], server)

/-- create_mcp_server handler (src/src/api/handlers/mcp.rs): persists the
descriptor directly and answers it; no URL validation is invoked on this
path. -/
def create_mcp_server (state : List McpServer) (fresh_id : Nat)
    (payload : CreateMcpServerRequest) :
    List McpServer × Except AppError McpServer :=
  let created := mcp_servers_create state fresh_id payload
  (created.1, .ok created.2)

/-- Parsed form of the cloud-metadata URL
http://169.254.169.254/latest/meta-data/ (scheme http, literal IPv4 host
169.254.169.254). -/
def metadataUrl : Url :=
  { scheme := "http", host := .v4 { a := 169, b := 254, c := 169, d := 254 } }

/-- Descriptor record the create handler persists for the cloud-metadata
creation request. -/
def mdServer : McpServer :=
  { id := 42, name := "x", url := "http://169.254.169.254/latest/meta-data/",
    protocol := "http", is_active := true }

/-- Process status of a managed backend, from src/src/mcp/server_manager.rs
(ServerStatus). -/
inductive ServerStatus where
  | Starting
  | Running
  | Stopped
  | Failed (msg : String)
deriving DecidableEq, Repr

/-- Spawn configuration (McpServerConfig); the environment map and working
directory are omitted because the embedded operations do not read them. -/
structure McpServerConfig where
  name : String
  command : String
  args : List String
deriving DecidableEq, Repr

/-- Registry entry (McpServerHandle); the child field is the pid of the
owned child process when one is still attached. -/
structure McpServerHandle where
  id : String
  config : McpServerConfig
  status : ServerStatus
  child : Option Nat
deriving DecidableEq, Repr

/-- McpServerManager::stop_server: remove the handle when present (the
HashMap remove of the source, keys being unique; the graceful-shutdown
write and the kill of the removed child are external-process effects that
do not touch the registry), and answer ok whether or not the id was
present. -/
def stop_server (registry : List (String × McpServerHandle))
    (server_id : String) :
    List (String × McpServerHandle) × Except AppError Unit :=
  (registry.eraseP (fun kv => kv.1 == server_id), .ok ())

/-- McpServerManager::send_message: a missing id is a not-found error; the
framed write to the stdin of the child is modelled as succeeding (write
failures are process effects outside the registry). -/
def send_message (registry : List (String × McpServerHandle))
    (server_id : String) (_message : String) : Except AppError Unit :=
  match registry.find? (fun kv => kv.1 == server_id) with
  | none => .error (.NotFound ("Server " ++ server_id ++ " not found"))
  | some _ => .ok ()

/-- Routing loop of handle_tools_call rewritten through List.find?. -/
theorem route_tool_call_as_find (net : Net) (id : RequestId) (name : String)
    (args : Json) (servers : List McpServer) :
    route_tool_call net id name args servers =
    match servers.find? (fun s => strStartsWith name (s.name ++ "_")) with
    | some server =>
      (match call_tool net server (name.drop (server.name ++ "_").length) args with
       | .ok result => JsonRpcResponse.mkSuccess id result
       | .error e =>
         JsonRpcResponse.mkError id (-32000) ("Tool call failed: " ++ e.display) none)
    | none =>
      JsonRpcResponse.mkError id (-32602) ("Unknown tool: " ++ name) none := by
  induction servers with
  | nil => rfl
  | cons server rest ih =>
    rw [route_tool_call, List.find?]
    cases h : strStartsWith name (server.name ++ "_") with
    | true => simp [h]
    | false => simpa [h] using ih

/-- C1: for a tools/call request carrying a prefixed name and arguments,
the gateway scans the active backends in order; the first backend whose
name followed by an underscore is a prefix of the requested name receives
one tools/call (via call_tool, hence a tools/call envelope whose params
carry the prefix-stripped tool name and the given arguments) and its
outcome alone determines the response; if no backend name plus underscore
is a prefix of the requested name, the gateway answers JSON-RPC error
-32602 with message Unknown tool: followed by the name. -/
theorem tools_call_routes_by_first_matching_backend (net : Net)
    (servers : List McpServer) (id : RequestId) (name : String) (args : Json) :
    handle_tools_call (.ok servers) net id
      (some (.obj [("name", .str name), ("arguments", args)])) =
    match servers.find? (fun s => strStartsWith name (s.name ++ "_")) with
    | some server =>
      (match call_tool net server (name.drop (server.name ++ "_").length) args with
       | .ok result => JsonRpcResponse.mkSuccess id result
       | .error e =>
         JsonRpcResponse.mkError id (-32000) ("Tool call failed: " ++ e.display) none)
    | none =>
      JsonRpcResponse.mkError id (-32602) ("Unknown tool: " ++ name) none := by
  have hparse : handle_tools_call (.ok servers) net id
      (some (.obj [("name", .str name), ("arguments", args)])) =
      route_tool_call net id name args servers := by
    simp [handle_tools_call, Json.getField, Json.asStr, List.lookup]
  rw [hparse, route_tool_call_as_find]

/-- C8 counterexample: the tools/list forward and a tools/call forward are
two distinct outbound request envelopes, yet both carry the JSON-RPC
identifier 1, so the identifiers the gateway chooses for distinct forwarded
calls are not distinct. -/
theorem distinct_forwards_share_identifier :
    list_tools_request ≠ call_tool_request "echo" (.obj []) ∧
    list_tools_request.id = (call_tool_request "echo" (.obj [])).id := by
  constructor
  · intro h
    have hm := congrArg JsonRpcRequest.method h
    exact absurd hm (by decide)
  · rfl

/-- C8 amended: the engine does not choose per-call-unique identifiers;
every request envelope it forwards to a backend (tools/list, tools/call,
resources/list, resources/read, prompts/list, prompts/get) carries the
constant JSON-RPC identifier 1. -/
theorem forwarded_identifier_is_constant_one (tn pn u : String) (args pargs : Json) :
    list_tools_request.id = some (.num 1) ∧
    (call_tool_request tn args).id = some (.num 1) ∧
    list_resources_request.id = some (.num 1) ∧
    list_prompts_request.id = some (.num 1) ∧
    (resources_read_request u).id = some (.num 1) ∧
    (prompts_get_request pn pargs).id = some (.num 1) :=
  ⟨rfl, rfl, rfl, rfl, rfl, rfl⟩

/-- C3 counterexample: backend alpha answers the forwarded tools/call with
JSON-RPC error code -32050 and message boom, but the gateway response to
the client carries code -32000 and a wrapped message, so the backend error
is not passed through unchanged for tools/call. -/
theorem tools_call_error_not_passthrough :
    errNet alphaServer (call_tool_request "echo" (.obj [])) =
      .ok { jsonrpc := "2.0", id := .num 1, result := none,
            error := some { code := -32050, message := "boom", data := none } } ∧
    handle_tools_call (.ok [alphaServer]) errNet (.num 9)
        (some (.obj [("name", .str "alpha_echo"), ("arguments", .obj [])])) =
      JsonRpcResponse.mkError (.num 9) (-32000)
        "Tool call failed: MCP protocol error: Tool execution failed: boom (code: -32050)"
        none ∧
    (-32000 : Int) ≠ -32050 :=
  ⟨rfl, rfl, by decide⟩

/-- C3 amended: when the contacted backend returns a JSON-RPC error
response, resources/read and prompts/get pass the backend error code,
message and data through unchanged, while tools/call wraps the backend
error into code -32000 with a message embedding the backend message and
code. -/
theorem backend_error_passthrough_except_tools_call (net : Net)
    (server : McpServer) (err : JsonRpcError) (id : RequestId)
    (ouri oname otool : String) (args : Json)
    (hp : server.protocol = "http")
    (hnet : ∀ req, net server req =
      .ok { jsonrpc := "2.0", id := .num 1, result := none, error := some err })
    (hu : strStartsWith (server.name ++ ":" ++ ouri) (server.name ++ ":") = true)
    (hn : strStartsWith (server.name ++ "_" ++ oname) (server.name ++ "_") = true)
    (ht : strStartsWith (server.name ++ "_" ++ otool) (server.name ++ "_") = true) :
    handle_resources_read (.ok [server]) net id
        (some (.obj [("uri", .str (server.name ++ ":" ++ ouri))])) =
      JsonRpcResponse.mkError id err.code err.message err.data
    ∧ handle_prompts_get (.ok [server]) net id
        (some (.obj [("name", .str (server.name ++ "_" ++ oname)), ("arguments", args)])) =
      JsonRpcResponse.mkError id err.code err.message err.data
    ∧ handle_tools_call (.ok [server]) net id
        (some (.obj [("name", .str (server.name ++ "_" ++ otool)), ("arguments", args)])) =
      JsonRpcResponse.mkError id (-32000)
        ("Tool call failed: " ++ ("MCP protocol error: " ++
          ("Tool execution failed: " ++ err.message ++ " (code: " ++
            toString err.code ++ ")"))) none := by
  refine ⟨?_, ?_, ?_⟩
  · simp [handle_resources_read, Json.getField, Json.asStr, List.lookup,
      route_resource_read, hu, forward_request, hp, hnet]
  · simp [handle_prompts_get, Json.getField, Json.asStr, List.lookup,
      route_prompt_get, hn, forward_request, hp, hnet]
  · simp [handle_tools_call, Json.getField, Json.asStr, List.lookup,
      route_tool_call, ht, call_tool, forward_request, hp, hnet, AppError.display]

/-- Witness for the C3 amended theorem at a concrete configuration: the
resources/read passthrough conclusion evaluated for backend alpha and the
error object of errNet. -/
theorem backend_error_passthrough_witness :
    handle_resources_read (.ok [alphaServer]) errNet (.num 3)
        (some (.obj [("uri", .str ("alpha" ++ ":" ++ "r"))])) =
      JsonRpcResponse.mkError (.num 3) (-32050) "boom" none := by
  exact (backend_error_passthrough_except_tools_call errNet alphaServer
    { code := -32050, message := "boom", data := none } (.num 3) "r" "p" "t" (.obj [])
    rfl (fun _ => rfl) (by decide) (by decide) (by decide)).1

/-- Key just inserted is found with the inserted value. -/
theorem lookup_insertField_self (fields : List (String × Json)) (k : String) (v : Json) :
    (insertField fields k v).lookup k = some v := by
  induction fields with
  | nil => simp [insertField, List.lookup]
  | cons kv rest ih =>
    obtain ⟨k1, w⟩ := kv
    by_cases h : k1 = k
    · subst h
      simp [insertField, List.lookup]
    · have hkk : (k == k1) = false := by
        simp only [beq_eq_false_iff_ne, ne_eq]
        exact fun hh => h hh.symm
      simp [insertField, h, List.lookup, hkk, ih]

/-- Insertion under a different key does not change a lookup. -/
theorem lookup_insertField_of_ne (fields : List (String × Json)) (k k2 : String)
    (v : Json) (h : k2 ≠ k) :
    (insertField fields k v).lookup k2 = fields.lookup k2 := by
  have hkk : (k2 == k) = false := by
    simp only [beq_eq_false_iff_ne, ne_eq]
    exact h
  induction fields with
  | nil => simp [insertField, List.lookup, hkk]
  | cons kv rest ih =>
    obtain ⟨k1, w⟩ := kv
    by_cases h1 : k1 = k
    · subst h1
      simp [insertField, List.lookup, hkk]
    · by_cases h2 : k2 = k1
      · subst h2
        simp [insertField, h1, List.lookup]
      · have hkk2 : (k2 == k1) = false := by
          simp only [beq_eq_false_iff_ne, ne_eq]
          exact h2
        simp [insertField, h1, List.lookup, hkk2, ih]

/-- The rewritten tool object carries the prefixed name. -/
theorem toolItemName_rewrite (fields : List (String × Json)) (server : McpServer)
    (n : String) :
    toolItemName ((((Json.obj fields).insert "name"
        (.str (server.name ++ "_" ++ n))).insert "_original_name" (.str n)).insert
          "_server_id" (.str (toString server.id))) =
      some (server.name ++ "_" ++ n) := by
  simp only [Json.insert, toolItemName, Json.getField]
  rw [lookup_insertField_of_ne _ _ _ _ (by decide),
      lookup_insertField_of_ne _ _ _ _ (by decide),
      lookup_insertField_self]
  rfl

/-- One backend listing contributes exactly its named tools, each renamed
with the backend prefix. -/
theorem filterMap_rewriteTool_names (server : McpServer) (tools : List Json) :
    (tools.filterMap (rewriteTool server)).map toolItemName =
      (namedTools tools).map (fun n => some (server.name ++ "_" ++ n)) := by
  induction tools with
  | nil => rfl
  | cons t rest ih =>
    cases hn : toolItemName t with
    | none =>
      have hr : rewriteTool server t = none := by
        unfold toolItemName at hn
        unfold rewriteTool
        rw [hn]
      simp only [List.filterMap_cons, hr, namedTools, hn]
      simpa [namedTools] using ih
    | some n =>
      obtain ⟨fields, rfl⟩ : ∃ fields, t = Json.obj fields := by
        cases t with
        | obj fields => exact ⟨fields, rfl⟩
        | null => simp [toolItemName, Json.getField] at hn
        | bool b => simp [toolItemName, Json.getField] at hn
        | num m => simp [toolItemName, Json.getField] at hn
        | str s1 => simp [toolItemName, Json.getField] at hn
        | arr xs => simp [toolItemName, Json.getField] at hn
      have hr : rewriteTool server (Json.obj fields) =
          some ((((Json.obj fields).insert "name"
            (.str (server.name ++ "_" ++ n))).insert "_original_name"
              (.str n)).insert "_server_id" (.str (toString server.id))) := by
        unfold toolItemName at hn
        unfold rewriteTool
        rw [hn]
      simp only [List.filterMap_cons, hr, namedTools, hn]
      simp only [List.map_cons, toolItemName_rewrite]
      refine congrArg (fun l => _ :: l) ?_
      simpa [namedTools] using ih

/-- The aggregation loop, one backend at a time: with every backend
answering successfully, the aggregated names are the per-backend renamed
named tools in backend order. -/
theorem aggregate_tools_names (net : Net) (tools : McpServer → List Json) :
    ∀ servers : List McpServer, (∀ s ∈ servers, list_tools net s = .ok (tools s)) →
    (aggregate_tools net servers).map toolItemName =
      servers.flatMap
        (fun s => (namedTools (tools s)).map (fun n => some (s.name ++ "_" ++ n)))
  | [], _ => rfl
  | server :: rest, hok => by
    have h1 : list_tools net server = .ok (tools server) :=
      hok server (List.mem_cons_self server rest)
    have ih := aggregate_tools_names net tools rest
      (fun s hs => hok s (List.mem_cons_of_mem server hs))
    simp [aggregate_tools, h1, List.flatMap_cons, ih,
      filterMap_rewriteTool_names]

/-- C2 amended: for a tools/list request in which every active backend
answers successfully, the aggregated tools array contains one item per
tool carrying a string name per backend, each with the name rewritten to
backendname_toolname, and the aggregate cardinality equals the sum over
the backends of the number of their name-carrying tools (a tool object
without a string name field is dropped by the gateway). -/
theorem tools_list_aggregates_named_tools (net : Net) (servers : List McpServer)
    (id : RequestId) (tools : McpServer → List Json)
    (hok : ∀ s ∈ servers, list_tools net s = .ok (tools s)) :
    (toolsArray (handle_tools_list (.ok servers) net id)).map toolItemName =
      servers.flatMap
        (fun s => (namedTools (tools s)).map (fun n => some (s.name ++ "_" ++ n)))
    ∧ (toolsArray (handle_tools_list (.ok servers) net id)).length =
      (servers.map (fun s => (namedTools (tools s)).length)).sum := by
  have harr : toolsArray (handle_tools_list (.ok servers) net id) =
      aggregate_tools net servers := by
    simp [toolsArray, handle_tools_list, JsonRpcResponse.mkSuccess,
      Json.getField, Json.asArr, List.lookup]
  refine ⟨by rw [harr]; exact aggregate_tools_names net tools servers hok, ?_⟩
  rw [harr]
  have hlen := congrArg List.length (aggregate_tools_names net tools servers hok)
  simpa [List.length_flatMap, Function.comp_def, List.length_map] using hlen

/-- Witness for the C2 amended theorem: one backend alpha exporting one
named tool; the aggregate holds exactly the renamed item alpha_echo and
has cardinality 1. -/
theorem tools_list_aggregation_witness :
    (∀ s ∈ [alphaServer], list_tools echoNet s =
      .ok [Json.obj [("name", Json.str "echo")]]) ∧
    (toolsArray (handle_tools_list (.ok [alphaServer]) echoNet (.num 7))).map
        toolItemName =
      [alphaServer].flatMap
        (fun s => (namedTools [Json.obj [("name", Json.str "echo")]]).map
          (fun n => some (s.name ++ "_" ++ n))) ∧
    (toolsArray (handle_tools_list (.ok [alphaServer]) echoNet (.num 7))).length =
      ([alphaServer].map
        (fun _s => (namedTools [Json.obj [("name", Json.str "echo")]]).length)).sum := by
  have hok : ∀ s ∈ [alphaServer], list_tools echoNet s =
      .ok [Json.obj [("name", Json.str "echo")]] := by
    intro s hs
    rw [List.mem_singleton] at hs
    subst hs
    rfl
  have h := tools_list_aggregates_named_tools echoNet [alphaServer] (.num 7)
    (fun _ => [Json.obj [("name", Json.str "echo")]]) hok
  exact ⟨hok, h.1, h.2⟩

/-- C2 counterexample: backend alpha answers tools/list successfully with
one tool object lacking a name field; the aggregated array is empty, so it
holds no item for that tool and its cardinality 0 differs from the backend
tool-list cardinality 1. -/
theorem tools_list_drops_nameless_tool :
    list_tools namelessNet alphaServer = .ok [Json.obj []] ∧
    toolsArray (handle_tools_list (.ok [alphaServer]) namelessNet (.num 7)) = [] ∧
    (0 : Nat) ≠ [Json.obj []].length :=
  ⟨rfl, rfl, by decide⟩

/-- First element satisfying a predicate, when every satisfying element of
the list is a given one. -/
theorem find?_eq_of_unique {α : Type} (p : α → Bool) (l : List α) (c : α)
    (hc : c ∈ l) (hpc : p c = true) (huniq : ∀ x ∈ l, p x = true → x = c) :
    l.find? p = some c := by
  induction l with
  | nil => cases hc
  | cons a rest ih =>
    by_cases ha : p a = true
    · have hac := huniq a (List.mem_cons_self a rest) ha
      subst hac
      exact List.find?_cons_of_pos rest ha
    · rw [List.find?_cons_of_neg rest ha]
      have hc2 : c ∈ rest := by
        rcases List.mem_cons.mp hc with h | h
        · subst h
          exact absurd hpc ha
        · exact h
      exact ih hc2 (fun x hx hpx => huniq x (List.mem_cons_of_mem a hx) hpx)

/-- C5: after credential c is marked inactive, authenticating with the
plaintext from its creation fails unauthorized (the active-only
enumeration cannot match it when no other active record verifies the
plaintext), and validating a bearer token previously issued for c fails as
revoked, even though the token signature is genuine and the token is not
yet expired. -/
theorem inactive_credential_blocks_both_paths (secret : String)
    (db : List ApiKey) (c : ApiKey) (issue_time now jti jti2 : Nat)
    (_hmem : c ∈ db) (hinactive : c.is_active = false)
    (hothers : ∀ k ∈ db, k.is_active = true →
      verify_api_key c.key_hash.key k.key_hash = false)
    (hfind : api_keys_find_by_id db c.id = some c)
    (hexp : now < issue_time + token_duration_minutes * 60) :
    authenticate_with_api_key secret now jti2 db c.key_hash.key =
      .error (.Unauthorized "Invalid API key")
    ∧ validate_token secret now db (generate_token secret issue_time jti c.id) =
      .error (.Unauthorized "API key has been revoked") := by
  constructor
  · have hnone : (api_keys_list_active db).find?
        (fun k => verify_api_key c.key_hash.key k.key_hash) = none := by
      rw [List.find?_eq_none]
      intro k hk
      rw [api_keys_list_active, List.mem_filter] at hk
      simp [hothers k hk.1 (by simpa using hk.2)]
    simp [authenticate_with_api_key, hnone]
  · simp [validate_token, jwt_validate_token, generate_token, hexp,
      hfind, hinactive]

/-- Witness for C5: the one-record store holding the inactive credential;
both authentication with its plaintext and validation of its earlier token
fail. -/
theorem inactive_credential_blocks_witness :
    authenticate_with_api_key "jwtsecret" 1000 21 [inactiveKey]
        inactiveKey.key_hash.key =
      .error (.Unauthorized "Invalid API key")
    ∧ validate_token "jwtsecret" 1000 [inactiveKey]
        (generate_token "jwtsecret" 400 20 inactiveKey.id) =
      .error (.Unauthorized "API key has been revoked") := by
  exact inactive_credential_blocks_both_paths "jwtsecret" [inactiveKey]
    inactiveKey 400 1000 20 21 (by decide) (by decide) (by decide)
    (by decide) (by decide)

/-- C6: for an active credential c in the store whose creation plaintext
no other record verifies, authentication with that plaintext succeeds and
returns a bearer token whose validation before expiry against the same
store yields a claim set whose subject is the UUID of c. -/
theorem authenticate_validate_round_trip (secret : String) (db : List ApiKey)
    (c : ApiKey) (t0 t1 jti : Nat)
    (hactive : c.is_active = true) (hmem : c ∈ db)
    (hunique : ∀ k ∈ db, verify_api_key c.key_hash.key k.key_hash = true → k = c)
    (hfind : api_keys_find_by_id db c.id = some c)
    (hexp : t1 < t0 + token_duration_minutes * 60) :
    authenticate_with_api_key secret t0 jti db c.key_hash.key =
      .ok (generate_token secret t0 jti c.id)
    ∧ ∃ claims, validate_token secret t1 db (generate_token secret t0 jti c.id) =
        .ok claims ∧ claims.sub = c.id := by
  constructor
  · have hsome : (api_keys_list_active db).find?
        (fun k => verify_api_key c.key_hash.key k.key_hash) = some c := by
      refine find?_eq_of_unique _ _ c ?_ ?_ ?_
      · rw [api_keys_list_active, List.mem_filter]
        exact ⟨hmem, by simpa using hactive⟩
      · simp [verify_api_key]
      · intro x hx hpx
        rw [api_keys_list_active, List.mem_filter] at hx
        exact hunique x hx.1 hpx
    simp [authenticate_with_api_key, hsome, hactive]
  · refine ⟨(generate_token secret t0 jti c.id).claims, ?_, rfl⟩
    simp [validate_token, jwt_validate_token, generate_token, hexp,
      hfind, hactive]

/-- Witness for C6: the one-record store holding the active credential;
authentication returns the expected token and its validation yields the
subject 8. -/
theorem authenticate_validate_round_trip_witness :
    authenticate_with_api_key "jwtsecret" 500 30 [activeKey]
        activeKey.key_hash.key =
      .ok (generate_token "jwtsecret" 500 30 activeKey.id)
    ∧ ∃ claims, validate_token "jwtsecret" 900 [activeKey]
        (generate_token "jwtsecret" 500 30 activeKey.id) =
        .ok claims ∧ claims.sub = activeKey.id := by
  exact authenticate_validate_round_trip "jwtsecret" [activeKey] activeKey
    500 900 30 (by decide) (by decide) (by decide) (by decide) (by decide)

/-- C7 counterexample: a filter with a present but empty event-type set
(and no other restriction) suppresses an error event, while the claimed
predicate admits it (empty set meaning all types); the two sides of the
claimed equivalence differ at this input. -/
theorem empty_type_set_rejects_event :
    should_send
        { event_types := some [], server_ids := [], include_system := true }
        (.errorEvent "E1" "boom") = false
    ∧ spec_should_send
        { event_types := some [], server_ids := [], include_system := true }
        (.errorEvent "E1" "boom") = true :=
  ⟨rfl, rfl⟩

/-- C7 amended: should_send holds exactly when (a) the event-type set is
absent or contains the type tag of the event (a present empty set admits
nothing), (b) the event is not system_health or include_system is set, and
(c) the event carries no backend id, or the backend-id set is empty, or
the backend id of the event belongs to it. -/
theorem should_send_iff (f : EventFilters) (e : StreamEvent) :
    should_send f e = true ↔
      ((f.event_types = none ∨
        ∃ types, f.event_types = some types ∧ event_type_tag e ∈ types) ∧
       (is_system_health e = false ∨ f.include_system = true) ∧
       (event_server_id e = none ∨ f.server_ids = [] ∨
        ∃ sid, event_server_id e = some sid ∧ sid ∈ f.server_ids)) := by
  cases hft : f.event_types <;> cases hsid : event_server_id e <;>
    cases hsys : is_system_health e <;>
      simp [should_send, hft, hsid, hsys, List.isEmpty_iff] <;>
        (try cases f.include_system) <;> (try simp)

/-- The source IPv4 validator accepts exactly the complement of the
blocked IPv4 ranges of the specification. -/
theorem validate_ipv4_ok_iff (ip : Ipv4Addr) :
    validate_ipv4 ip = .ok () ↔ ¬ spec_blocked_v4 ip := by
  unfold validate_ipv4 spec_blocked_v4
  cases hc1 : ip.is_loopback with
  | true =>
    rw [if_pos rfl]
    simp only [Ipv4Addr.is_loopback, beq_iff_eq, and_assoc, or_assoc] at hc1
    exact iff_of_false (by simp) (not_not_intro (Or.inl hc1))
  | false =>
  rw [if_neg (by simp)]
  cases hc2 : ip.is_private with
  | true =>
    rw [if_pos rfl]
    simp only [Ipv4Addr.is_private, Bool.or_eq_true, Bool.and_eq_true,
      beq_iff_eq, decide_eq_true_eq, and_assoc, or_assoc] at hc2
    refine iff_of_false (by simp) (not_not_intro ?_)
    rcases hc2 with h | h | h
    · exact Or.inr (Or.inl h)
    · exact Or.inr (Or.inr (Or.inl h))
    · exact Or.inr (Or.inr (Or.inr (Or.inl h)))
  | false =>
  rw [if_neg (by simp)]
  cases hc3 : ip.is_link_local with
  | true =>
    rw [if_pos rfl]
    simp only [Ipv4Addr.is_link_local, Bool.and_eq_true, beq_iff_eq, and_assoc, or_assoc] at hc3
    exact iff_of_false (by simp) (not_not_intro (Or.inr (Or.inr (Or.inr (Or.inr (Or.inl hc3))))))
  | false =>
  rw [if_neg (by simp)]
  cases hc4 : ip.is_unspecified with
  | true =>
    rw [if_pos rfl]
    simp only [Ipv4Addr.is_unspecified, Bool.and_eq_true, beq_iff_eq, and_assoc, or_assoc] at hc4
    exact iff_of_false (by simp) (not_not_intro (Or.inr (Or.inr (Or.inr (Or.inr (Or.inr (Or.inr (Or.inr (Or.inr (Or.inr (Or.inr (Or.inr (Or.inr (Or.inr (Or.inr (hc4))))))))))))))))
  | false =>
  rw [if_neg (by simp)]
  cases hc5 : ip.is_broadcast with
  | true =>
    rw [if_pos rfl]
    simp only [Ipv4Addr.is_broadcast, Bool.and_eq_true, beq_iff_eq, and_assoc, or_assoc] at hc5
    exact iff_of_false (by simp) (not_not_intro (Or.inr (Or.inr (Or.inr (Or.inr (Or.inr (Or.inr (Or.inr (Or.inr (Or.inr (Or.inr (Or.inr (Or.inr (Or.inr (Or.inl hc5)))))))))))))))
  | false =>
  rw [if_neg (by simp)]
  cases hc6 : ip.is_documentation with
  | true =>
    rw [if_pos rfl]
    simp only [Ipv4Addr.is_documentation, Bool.or_eq_true, Bool.and_eq_true,
      beq_iff_eq, and_assoc, or_assoc] at hc6
    refine iff_of_false (by simp) (not_not_intro ?_)
    rcases hc6 with h | h | h
    · exact Or.inr (Or.inr (Or.inr (Or.inr (Or.inr (Or.inr (Or.inr (Or.inr (Or.inl h))))))))
    · exact Or.inr (Or.inr (Or.inr (Or.inr (Or.inr (Or.inr (Or.inr (Or.inr (Or.inr (Or.inl h)))))))))
    · exact Or.inr (Or.inr (Or.inr (Or.inr (Or.inr (Or.inr (Or.inr (Or.inr (Or.inr (Or.inr (Or.inl h))))))))))
  | false =>
  rw [if_neg (by simp)]
  cases hc7 : (ip.a.val == 100 && decide (64 ≤ ip.b.val) && decide (ip.b.val ≤ 127)) with
  | true =>
    rw [if_pos rfl]
    simp only [Bool.and_eq_true, beq_iff_eq, decide_eq_true_eq, and_assoc, or_assoc] at hc7
    exact iff_of_false (by simp) (not_not_intro (Or.inr (Or.inr (Or.inr (Or.inr (Or.inr (Or.inl hc7)))))))
  | false =>
  rw [if_neg (by simp)]
  cases hc8 : (ip.a.val == 192 && ip.b.val == 0 && ip.c.val == 0) with
  | true =>
    rw [if_pos rfl]
    simp only [Bool.and_eq_true, beq_iff_eq, and_assoc, or_assoc] at hc8
    exact iff_of_false (by simp) (not_not_intro (Or.inr (Or.inr (Or.inr (Or.inr (Or.inr (Or.inr (Or.inl hc8))))))))
  | false =>
  rw [if_neg (by simp)]
  cases hc9 : (ip.a.val == 198 && (ip.b.val == 18 || ip.b.val == 19)) with
  | true =>
    rw [if_pos rfl]
    simp only [Bool.and_eq_true, Bool.or_eq_true, beq_iff_eq, and_assoc, or_assoc] at hc9
    exact iff_of_false (by simp) (not_not_intro (Or.inr (Or.inr (Or.inr (Or.inr (Or.inr (Or.inr (Or.inr (Or.inl hc9)))))))))
  | false =>
  rw [if_neg (by simp)]
  cases hc10 : (decide (224 ≤ ip.a.val) && decide (ip.a.val ≤ 239)) with
  | true =>
    rw [if_pos rfl]
    simp only [Bool.and_eq_true, decide_eq_true_eq, and_assoc, or_assoc] at hc10
    exact iff_of_false (by simp) (not_not_intro (Or.inr (Or.inr (Or.inr (Or.inr (Or.inr (Or.inr (Or.inr (Or.inr (Or.inr (Or.inr (Or.inr (Or.inl hc10)))))))))))))
  | false =>
  rw [if_neg (by simp)]
  cases hc11 : (decide (240 ≤ ip.a.val)) with
  | true =>
    rw [if_pos rfl]
    simp only [decide_eq_true_eq, and_assoc, or_assoc] at hc11
    exact iff_of_false (by simp) (not_not_intro (Or.inr (Or.inr (Or.inr (Or.inr (Or.inr (Or.inr (Or.inr (Or.inr (Or.inr (Or.inr (Or.inr (Or.inr (Or.inl hc11))))))))))))))
  | false =>
  rw [if_neg (by simp)]
  refine iff_of_true rfl ?_
  intro hc
  rcases hc with h | h | h | h | h | h | h | h | h | h | h | h | h | h | h
  · simp [Ipv4Addr.is_loopback, h] at hc1
  · simp [Ipv4Addr.is_private, h] at hc2
  · simp [Ipv4Addr.is_private, h] at hc2
  · simp [Ipv4Addr.is_private, h] at hc2
  · simp [Ipv4Addr.is_link_local, h] at hc3
  · simp [h] at hc7
  · simp [h] at hc8
  · rcases h with ⟨ha, hb | hb⟩ <;> simp [ha, hb] at hc9
  · simp [Ipv4Addr.is_documentation, h] at hc6
  · simp [Ipv4Addr.is_documentation, h] at hc6
  · simp [Ipv4Addr.is_documentation, h] at hc6
  · simp [h] at hc10
  · simp [h] at hc11
  · simp [Ipv4Addr.is_broadcast, h] at hc5
  · simp [Ipv4Addr.is_unspecified, h] at hc4

/-- The source IPv6 validator accepts exactly the complement of the
blocked IPv6 set of the specification. -/
theorem validate_ipv6_ok_iff (ip : Ipv6Addr) :
    validate_ipv6 ip = .ok () ↔ ¬ spec_blocked_v6 ip := by
  unfold validate_ipv6 spec_blocked_v6 Ipv6Addr.to_ipv4_mapped
  cases hc1 : ip.is_loopback with
  | true =>
    rw [if_pos rfl]
    simp only [Ipv6Addr.is_loopback, Bool.and_eq_true, beq_iff_eq,
      and_assoc] at hc1
    exact iff_of_false (by simp) (not_not_intro (Or.inl hc1))
  | false =>
  rw [if_neg (by simp)]
  cases hc2 : ip.is_unspecified with
  | true =>
    rw [if_pos rfl]
    simp only [Ipv6Addr.is_unspecified, Bool.and_eq_true, beq_iff_eq,
      and_assoc] at hc2
    exact iff_of_false (by simp) (not_not_intro (Or.inr (Or.inl hc2)))
  | false =>
  rw [if_neg (by simp)]
  cases hm : (ip.s0.val == 0 && ip.s1.val == 0 && ip.s2.val == 0 &&
      ip.s3.val == 0 && ip.s4.val == 0 && ip.s5.val == 65535) with
  | true =>
    rw [if_pos rfl]
    simp only [Option.elim]
    simp only [Bool.and_eq_true, beq_iff_eq, and_assoc] at hm
    obtain ⟨hm0, hm1, hm2, hm3, hm4, hm5⟩ := hm
    rw [validate_ipv4_ok_iff]
    constructor
    · intro hnb4 hv6
      rcases hv6 with h | h | h | h | h | h
      · obtain ⟨_, _, _, _, _, h5, _, _⟩ := h
        omega
      · obtain ⟨_, _, _, _, _, h5, _, _⟩ := h
        omega
      · omega
      · omega
      · omega
      · obtain ⟨_, _, _, _, _, _, hb⟩ := h
        exact hnb4 hb
    · intro hnb6 hb4
      exact hnb6 (Or.inr (Or.inr (Or.inr (Or.inr (Or.inr
        ⟨hm0, hm1, hm2, hm3, hm4, hm5, hb4⟩)))))
  | false =>
  rw [if_neg (by simp)]
  simp only [Option.elim]
  unfold validate_ipv6_segments
  cases hu : (ip.s0.val / 512 * 512 == 64512) with
  | true =>
    rw [if_pos rfl]
    simp only [beq_iff_eq] at hu
    refine iff_of_false (by simp) (not_not_intro (Or.inr (Or.inr (Or.inl ?_))))
    have := ip.s0.isLt
    omega
  | false =>
  rw [if_neg (by simp)]
  cases hll : (ip.s0.val / 64 * 64 == 65152) with
  | true =>
    rw [if_pos rfl]
    simp only [beq_iff_eq] at hll
    refine iff_of_false (by simp)
      (not_not_intro (Or.inr (Or.inr (Or.inr (Or.inl ?_)))))
    have := ip.s0.isLt
    omega
  | false =>
  rw [if_neg (by simp)]
  cases hmc : (ip.s0.val / 256 * 256 == 65280) with
  | true =>
    rw [if_pos rfl]
    simp only [beq_iff_eq] at hmc
    refine iff_of_false (by simp)
      (not_not_intro (Or.inr (Or.inr (Or.inr (Or.inr (Or.inl ?_))))))
    have := ip.s0.isLt
    omega
  | false =>
  rw [if_neg (by simp)]
  simp only [beq_eq_false_iff_ne, ne_eq] at hu hll hmc
  refine iff_of_true rfl ?_
  intro hv6
  rcases hv6 with h | h | h | h | h | h
  · obtain ⟨h0, h1, h2, h3, h4, h5, h6, h7⟩ := h
    simp [Ipv6Addr.is_loopback, h0, h1, h2, h3, h4, h5, h6, h7] at hc1
  · obtain ⟨h0, h1, h2, h3, h4, h5, h6, h7⟩ := h
    simp [Ipv6Addr.is_unspecified, h0, h1, h2, h3, h4, h5, h6, h7] at hc2
  · omega
  · omega
  · have := ip.s0.isLt
    omega
  · obtain ⟨h0, h1, h2, h3, h4, h5, _⟩ := h
    simp [h0, h1, h2, h3, h4, h5] at hm

/-- C9: for every URL whose host is a literal IP address, the SSRF
validator accepts exactly when the scheme is http or https and the address
lies outside the blocked ranges of the specification: every non-http(s)
scheme is rejected, every blocked literal-IP URL is rejected, and every
http or https URL whose literal IP is outside all blocked ranges is
accepted. -/
theorem validate_url_for_ssrf_accepts_iff
    (resolve : String → Option (List IpAddr)) :
    (∀ (scheme : String) (ip : Ipv4Addr),
      validate_url_for_ssrf resolve { scheme := scheme, host := .v4 ip } = .ok () ↔
        ((scheme = "http" ∨ scheme = "https") ∧ ¬ spec_blocked_v4 ip)) ∧
    (∀ (scheme : String) (ip : Ipv6Addr),
      validate_url_for_ssrf resolve { scheme := scheme, host := .v6 ip } = .ok () ↔
        ((scheme = "http" ∨ scheme = "https") ∧ ¬ spec_blocked_v6 ip)) ∧
    (∀ url : Url, url.scheme ≠ "http" → url.scheme ≠ "https" →
      validate_url_for_ssrf resolve url = .error (.InvalidScheme url.scheme)) := by
  refine ⟨?_, ?_, ?_⟩
  · intro scheme ip
    unfold validate_url_for_ssrf
    dsimp only
    by_cases hs : scheme ≠ "http" ∧ scheme ≠ "https"
    · rw [if_pos hs]
      exact iff_of_false (by simp) (by tauto)
    · rw [if_neg hs]
      have hsch : scheme = "http" ∨ scheme = "https" := by tauto
      rw [iff_true_intro hsch, true_and]
      cases hl : is_localhost (Host.v4 ip) with
      | true =>
        rw [if_pos rfl]
        simp only [is_localhost, Bool.or_eq_true, beq_iff_eq,
          Ipv4Addr.is_unspecified, Bool.and_eq_true, and_assoc] at hl
        refine iff_of_false (by simp) (not_not_intro ?_)
        unfold spec_blocked_v4
        rcases hl with h | h
        · exact Or.inl h
        · exact Or.inr (Or.inr (Or.inr (Or.inr (Or.inr (Or.inr (Or.inr
            (Or.inr (Or.inr (Or.inr (Or.inr (Or.inr (Or.inr (Or.inr h)))))))))))))
      | false =>
      rw [if_neg (by simp)]
      cases hmd : is_cloud_metadata_endpoint (Host.v4 ip) with
      | true =>
        rw [if_pos rfl]
        simp only [is_cloud_metadata_endpoint, Bool.and_eq_true, beq_iff_eq,
          and_assoc] at hmd
        refine iff_of_false (by simp) (not_not_intro ?_)
        unfold spec_blocked_v4
        exact Or.inr (Or.inr (Or.inr (Or.inr (Or.inl ⟨hmd.1, hmd.2.1⟩))))
      | false =>
      rw [if_neg (by simp)]
      exact validate_ipv4_ok_iff ip
  · intro scheme ip
    unfold validate_url_for_ssrf
    dsimp only
    by_cases hs : scheme ≠ "http" ∧ scheme ≠ "https"
    · rw [if_pos hs]
      exact iff_of_false (by simp) (by tauto)
    · rw [if_neg hs]
      have hsch : scheme = "http" ∨ scheme = "https" := by tauto
      rw [iff_true_intro hsch, true_and]
      cases hl : is_localhost (Host.v6 ip) with
      | true =>
        rw [if_pos rfl]
        simp only [is_localhost, Ipv6Addr.is_loopback, Bool.and_eq_true,
          beq_iff_eq, and_assoc] at hl
        refine iff_of_false (by simp) (not_not_intro ?_)
        unfold spec_blocked_v6
        exact Or.inl hl
      | false =>
      rw [if_neg (by simp)]
      rw [if_neg (by simp [is_cloud_metadata_endpoint])]
      exact validate_ipv6_ok_iff ip
  · intro url h1 h2
    unfold validate_url_for_ssrf
    rw [if_pos ⟨h1, h2⟩]

/-- Witness for the scheme clause of the C9 theorem: an ftp URL with a
name host is rejected as an invalid scheme. -/
theorem validate_url_rejects_ftp_scheme :
    validate_url_for_ssrf (fun _ => none)
      { scheme := "ftp", host := .name "example.com" } =
      .error (.InvalidScheme "ftp") :=
  (validate_url_for_ssrf_accepts_iff (fun _ => none)).2.2
    { scheme := "ftp", host := .name "example.com" } (by decide) (by decide)

/-- C4: the security module itself rejects the cloud-metadata URL as a
security violation, but the admin create handler never invokes it: the
same creation request is persisted as an active descriptor and answered
ok, so the request is not rejected with HTTP 422 and the store changes. -/
theorem create_persists_blocked_url :
    validate_url_for_ssrf (fun _ => none) metadataUrl =
      .error .MetadataEndpointBlocked ∧
    create_mcp_server [] 42
        { name := "x", url := "http://169.254.169.254/latest/meta-data/",
          protocol := "http", command := none } =
      ([mdServer], .ok mdServer) :=
  ⟨rfl, rfl⟩

/-- C10: stop_server answers ok for every id, never a not-found error; for
an id absent from the registry it is a no-op that leaves the registry
unchanged, while send_message answers a not-found error for the same
unknown id. -/
theorem stop_unknown_id_is_noop (registry : List (String × McpServerHandle))
    (server_id message : String)
    (habsent : registry.find? (fun kv => kv.1 == server_id) = none) :
    (stop_server registry server_id).2 = .ok () ∧
    (stop_server registry server_id).1 = registry ∧
    send_message registry server_id message =
      .error (.NotFound ("Server " ++ server_id ++ " not found")) := by
  refine ⟨rfl, ?_, by simp [send_message, habsent]⟩
  unfold stop_server
  exact List.eraseP_of_forall_not (fun kv hkv => by
    simpa using List.find?_eq_none.mp habsent kv hkv)

/-- Witness for C10 at the empty registry and the unknown id z. -/
theorem stop_unknown_id_is_noop_witness :
    (stop_server [] "z").2 = .ok () ∧
    (stop_server [] "z").1 = [] ∧
    send_message [] "z" "msg" =
      .error (.NotFound ("Server " ++ "z" ++ " not found")) :=
  stop_unknown_id_is_noop [] "z" "msg" rfl

end MetaMcp

